import Mathlib

/-!
Verification of the dlight-hass Home Assistant integration.

The repository consists of two revisions of a light platform
(`src/light.py` and `src/custom_components/dlight-hass/light.py`, called
`V1` and `V2` below), two revisions of a config flow
(`src/config_flow.py` and `src/custom_components/dlight-hass/config_flow.py`)
and one setup/teardown module (`src/custom_components/dlight-hass/__init__.py`).

Python values returned by the external `dlightclient` library (raw device
responses) are modelled by the JSON-like type `JVal`; Python numeric
arithmetic on the small integer ranges involved is modelled by exact
integer arithmetic (the float expressions in the source coincide with the
exact ceiling on the ranges 0..255 and 0..100 that the code handles).
-/

/-- Ceiling division `⌈a / b⌉` for integers with `b > 0`.  Models Python
`math.ceil(x / b * a)`-style expressions, which on the integer ranges used
by this integration agree with exact rational arithmetic. -/
def ceilDiv (a b : Int) : Int := (a + b - 1) / b

/-- A JSON-like Python value, as returned by the `dlightclient` library
( `None`, `bool`, `int`, `str` or `dict`). -/
inductive JVal where
  | null : JVal
  | bool (b : Bool) : JVal
  | int (n : Int) : JVal
  | str (s : String) : JVal
  | dict (entries : List (String × JVal)) : JVal

/-- Python `d.get(k)` on a dict modelled as an association list:
the value of the first entry with key `k`, if any. -/
def jdictGet (entries : List (String × JVal)) (k : String) : Option JVal :=
  match entries with
  | [] => none
  | (k2, v) :: rest => if k2 = k then some v else jdictGet rest k

/-- Python truthiness of a `JVal` (`bool(v)`): `None` and empty
containers/zero are falsy. -/
def jtruthy : JVal → Bool
  | JVal.null => false
  | JVal.bool b => b
  | JVal.int n => n != 0
  | JVal.str s => s != ""
  | JVal.dict entries => !entries.isEmpty

/-- Python `v == "SUCCESS"` for an optional `JVal` (`dict.get` result):
true exactly for the string `"SUCCESS"`; `None`, numbers, bools and dicts
never compare equal to a string in Python. -/
def isSuccess : Option JVal → Bool
  | some (JVal.str s) => s == "SUCCESS"
  | _ => false

/-- The possible outcomes of an awaited `dlightclient` call as observed by
the caller: a returned value, the repository's own surrounding
`async_timeout.timeout` / `asyncio.wait_for` wrapper firing
(`asyncio.TimeoutError`), or one of the library's exception classes
(`DLightTimeoutError`, `DLightConnectionError`, `DLightResponseError`,
other `DLightError`), or any other unexpected exception. -/
inductive QueryOutcome where
  | ok (v : JVal) : QueryOutcome
  | wrapperTimeout : QueryOutcome
  | libTimeout : QueryOutcome
  | libConnError : QueryOutcome
  | libResponseError : QueryOutcome
  | libError : QueryOutcome
  | otherExc : QueryOutcome

/-- The distinct `raise UpdateFailed(...)` sites of
`async_update_data` in `src/light.py` (lines 74-88). -/
inductive UpdateFailure where
  | badStatus : UpdateFailure
  | missingStates : UpdateFailure
  | wrapperTimeout : UpdateFailure
  | libTimeout : UpdateFailure
  | libError : UpdateFailure
  | unexpected : UpdateFailure
deriving DecidableEq

/-- The coordinator update function `async_update_data` from `src/light.py` lines 65-88.  The device call
`client.query_device_state` is abstracted by its outcome `o`.

* a returned non-dict value either fails the truthiness test (falsy) or
  raises `AttributeError` at `.get` (truthy), which the final
  `except Exception` clause converts to `UpdateFailed`;
* a raised `UpdateFailed` from inside the `try` block is itself caught by
  `except Exception` and re-raised as `UpdateFailed`, so the failure tags
  `badStatus`/`missingStates` survive as failures;
* `asyncio.TimeoutError` here is raised by the repository's own
  `async_timeout.timeout(10)` wrapper at line 70, not by the library. -/
def async_update_data (o : QueryOutcome) : Except UpdateFailure JVal :=
  match o with
  | QueryOutcome.ok (JVal.dict entries) =>
      if !jtruthy (JVal.dict entries) || !isSuccess (jdictGet entries "status") then
        Except.error UpdateFailure.badStatus
      else
        match jdictGet entries "states" with
        | some states => Except.ok states
        | none => Except.error UpdateFailure.missingStates
  | QueryOutcome.ok JVal.null => Except.error UpdateFailure.badStatus
  | QueryOutcome.ok (JVal.bool b) =>
      if b then Except.error UpdateFailure.unexpected
      else Except.error UpdateFailure.badStatus
  | QueryOutcome.ok (JVal.int n) =>
      if n != 0 then Except.error UpdateFailure.unexpected
      else Except.error UpdateFailure.badStatus
  | QueryOutcome.ok (JVal.str s) =>
      if s != "" then Except.error UpdateFailure.unexpected
      else Except.error UpdateFailure.badStatus
  | QueryOutcome.wrapperTimeout => Except.error UpdateFailure.wrapperTimeout
  | QueryOutcome.libTimeout => Except.error UpdateFailure.libTimeout
  | QueryOutcome.libConnError => Except.error UpdateFailure.libError
  | QueryOutcome.libResponseError => Except.error UpdateFailure.libError
  | QueryOutcome.libError => Except.error UpdateFailure.libError
  | QueryOutcome.otherExc => Except.error UpdateFailure.unexpected

/-- The user input dict of the config flow form
(`CONF_IP_ADDRESS`, `CONF_DEVICE_ID` required strings, `CONF_NAME` an
optional string per `STEP_USER_DATA_SCHEMA`). -/
structure FlowUserData where
  ip_address : String
  device_id : String
  name : Option String
deriving DecidableEq

/-- The distinct `raise CannotConnect(...)` sites of `validate_input`
(`src/config_flow.py` lines 66-95 and
`src/custom_components/dlight-hass/config_flow.py` lines 90-123). -/
inductive ConnectFailure where
  | nonSuccess : ConnectFailure
  | wrapTimeout : ConnectFailure
  | libTimeout : ConnectFailure
  | connError : ConnectFailure
  | responseError : ConnectFailure
  | libError : ConnectFailure
  | unexpected : ConnectFailure
deriving DecidableEq

/-- Python `name_opt or fallback` where `name_opt` is `data.get(CONF_NAME)`
(`None` or a string): the name when truthy (non-`None` and non-empty),
otherwise the fallback. -/
def pyOrName (name : Option String) (fallback : JVal) : JVal :=
  match name with
  | some s => if s != "" then JVal.str s else fallback
  | none => fallback

/-- Python `opt_val or fallback` where `opt_val` is a `dict.get` result:
the value when present and truthy, otherwise the fallback. -/
def pyOrJ (v : Option JVal) (fallback : JVal) : JVal :=
  match v with
  | some x => if jtruthy x then x else fallback
  | none => fallback

/-- Python `d.get(k, default)`. -/
def jdictGetD (entries : List (String × JVal)) (k : String) (dflt : JVal) : JVal :=
  (jdictGet entries k).getD dflt

/-- The function `validate_input` from `src/config_flow.py` lines 38-95.  The
`client.query_device_info` call is abstracted by its outcome `o`; the
`asyncio.wait_for(..., timeout=client.default_timeout)` wrapper written by
this repository at lines 60-63 is what raises `asyncio.TimeoutError`
(`wrapperTimeout`).  The returned dict `{"title": title}` is modelled by
its title value.  Notes kept faithful to the source:

* line 74: `title = data.get(CONF_NAME) or info.get("deviceModel", device_id)`
  uses Python `or`, so an empty-string name falls through to the fallback,
  and the fallback is the raw `deviceModel` entry whenever that key is
  present (whatever its value), else the device id;
* a truthy non-dict `info` raises `AttributeError` at `.get`, caught by
  the final `except Exception` clause; a falsy one fails the `not info`
  test; both raise `CannotConnect`;
* the `raise CannotConnect` at line 70 is itself caught by
  `except Exception` and re-raised as `CannotConnect`;
* `DLightResponseError` is a `DLightError` and in this revision is caught
  by the `except DLightError` clause. -/
def validate_input (data : FlowUserData) (o : QueryOutcome) : Except ConnectFailure JVal :=
  match o with
  | QueryOutcome.ok (JVal.dict entries) =>
      if !jtruthy (JVal.dict entries) || !isSuccess (jdictGet entries "status") then
        Except.error ConnectFailure.nonSuccess
      else
        Except.ok (pyOrName data.name (jdictGetD entries "deviceModel" (JVal.str data.device_id)))
  | QueryOutcome.ok JVal.null => Except.error ConnectFailure.nonSuccess
  | QueryOutcome.ok (JVal.bool b) =>
      if b then Except.error ConnectFailure.unexpected
      else Except.error ConnectFailure.nonSuccess
  | QueryOutcome.ok (JVal.int n) =>
      if n != 0 then Except.error ConnectFailure.unexpected
      else Except.error ConnectFailure.nonSuccess
  | QueryOutcome.ok (JVal.str s) =>
      if s != "" then Except.error ConnectFailure.unexpected
      else Except.error ConnectFailure.nonSuccess
  | QueryOutcome.wrapperTimeout => Except.error ConnectFailure.wrapTimeout
  | QueryOutcome.libTimeout => Except.error ConnectFailure.libTimeout
  | QueryOutcome.libConnError => Except.error ConnectFailure.connError
  | QueryOutcome.libResponseError => Except.error ConnectFailure.libError
  | QueryOutcome.libError => Except.error ConnectFailure.libError
  | QueryOutcome.otherExc => Except.error ConnectFailure.unexpected

/-- The function `validate_input` from
`src/custom_components/dlight-hass/config_flow.py` lines 55-123
(the `_IMPORT_SUCCESS` guard is taken as true: the library is installed).
This revision differs from the other one in the title fallback
(line 98-99: `model_or_id = info.get("deviceModel") or device_id`, then
`title = data.get(CONF_NAME) or model_or_id`) and catches
`DLightResponseError` in a clause of its own. -/
def validate_input_v2 (data : FlowUserData) (o : QueryOutcome) : Except ConnectFailure JVal :=
  match o with
  | QueryOutcome.ok (JVal.dict entries) =>
      if !jtruthy (JVal.dict entries) || !isSuccess (jdictGet entries "status") then
        Except.error ConnectFailure.nonSuccess
      else
        Except.ok (pyOrName data.name
          (pyOrJ (jdictGet entries "deviceModel") (JVal.str data.device_id)))
  | QueryOutcome.ok JVal.null => Except.error ConnectFailure.nonSuccess
  | QueryOutcome.ok (JVal.bool b) =>
      if b then Except.error ConnectFailure.unexpected
      else Except.error ConnectFailure.nonSuccess
  | QueryOutcome.ok (JVal.int n) =>
      if n != 0 then Except.error ConnectFailure.unexpected
      else Except.error ConnectFailure.nonSuccess
  | QueryOutcome.ok (JVal.str s) =>
      if s != "" then Except.error ConnectFailure.unexpected
      else Except.error ConnectFailure.nonSuccess
  | QueryOutcome.wrapperTimeout => Except.error ConnectFailure.wrapTimeout
  | QueryOutcome.libTimeout => Except.error ConnectFailure.libTimeout
  | QueryOutcome.libConnError => Except.error ConnectFailure.connError
  | QueryOutcome.libResponseError => Except.error ConnectFailure.responseError
  | QueryOutcome.libError => Except.error ConnectFailure.libError
  | QueryOutcome.otherExc => Except.error ConnectFailure.unexpected

/-- A device-info/state query outcome that passes the validation tests in
the source: a returned dict, truthy, with `status == "SUCCESS"`. -/
def goodInfo : QueryOutcome → Bool
  | QueryOutcome.ok (JVal.dict entries) =>
      jtruthy (JVal.dict entries) && isSuccess (jdictGet entries "status")
  | _ => false

/-- Whether an `Except` result is a success. -/
def isOkE {ε α : Type} : Except ε α → Bool
  | Except.ok _ => true
  | Except.error _ => false

/-- The outcomes in which the imported `dlightclient` library raised an
exception of its own (its `DLight*` classes).  The repository-side
`asyncio.TimeoutError` (`wrapperTimeout`) is raised by `async_timeout` /
`asyncio.wait_for` around a call that the library did not complete. -/
def libraryRaised : QueryOutcome → Bool
  | QueryOutcome.libTimeout => true
  | QueryOutcome.libConnError => true
  | QueryOutcome.libResponseError => true
  | QueryOutcome.libError => true
  | _ => false

/-- An `async_update_data` failure whose raise site reports a timeout
(the two clauses of `src/light.py` lines 80-83 whose message starts with
`"Timeout communicating with dLight"`). -/
def updateTimeoutFailure : Except UpdateFailure JVal → Bool
  | Except.error UpdateFailure.wrapperTimeout => true
  | Except.error UpdateFailure.libTimeout => true
  | _ => false

/-- A `validate_input` failure whose raise site reports a timeout
(the two clauses whose message starts with `"Timeout connecting to dLight"`). -/
def connectTimeoutFailure : Except ConnectFailure JVal → Bool
  | Except.error ConnectFailure.wrapTimeout => true
  | Except.error ConnectFailure.libTimeout => true
  | _ => false

/-- The `"color"` entry of the coordinator's states dict: absent, present
but not a dict (the `isinstance(..., dict)` test fails), or a dict whose
`"temperature"` entry, when present, is an integer per the device states
schema. -/
inductive ColorEntry where
  | absent : ColorEntry
  | nonDict : ColorEntry
  | dictOf (temperature : Option Int) : ColorEntry
deriving DecidableEq

/-- The coordinator's data dict (the polled device states), typed per the
device states schema: `"on"` is a bool when present and `"brightness"` an
integer when present.  `extraTruthy` records whether the dict holds any
further entries; such entries (including ones whose value is `None`,
which the `.get(...) is not None` reads treat like absent keys) affect
only the Python truthiness of the dict. -/
structure StatesData where
  onEntry : Option Bool
  brightnessEntry : Option Int
  colorEntry : ColorEntry
  extraTruthy : Bool
deriving DecidableEq

/-- Python truthiness of the states dict: non-empty. -/
def StatesData.truthy (d : StatesData) : Bool :=
  d.onEntry.isSome || d.brightnessEntry.isSome
    || (d.colorEntry != ColorEntry.absent) || d.extraTruthy

/-- The three optimistic-state fields of the light entity
(`_attr_is_on` / `_attr_brightness` / `_attr_color_temp_kelvin` in
`src/light.py`, `_optimistic_on` / `_optimistic_brightness` /
`_optimistic_color_temp` in `src/custom_components/dlight-hass/light.py`). -/
structure OptimisticState where
  isOnField : Option Bool
  brightnessField : Option Int
  colorTempField : Option Int
deriving DecidableEq

/-- All three optimistic fields `None`, as set by the error handlers and
by `_handle_coordinator_update` / `_clear_optimistic_state`. -/
def clearedState : OptimisticState := ⟨none, none, none⟩

/-- Property `DLightEntity.is_on` from `src/light.py` lines 177-185: the optimistic
field if set, else (when the coordinator dict is truthy) the polled
`"on"` entry. -/
def V1.is_on (s : OptimisticState) (data : Option StatesData) : Option Bool :=
  match s.isOnField with
  | some b => some b
  | none =>
      match data with
      | some d => if d.truthy then d.onEntry else none
      | none => none

/-- Property `DLightEntity.brightness` from `src/light.py` lines 187-198: the
optimistic field if set, else the polled `"brightness"` (0-100) scaled by
`math.ceil((x / 100) * 255)` to 0-255. -/
def V1.brightness (s : OptimisticState) (data : Option StatesData) : Option Int :=
  match s.brightnessField with
  | some n => some n
  | none =>
      match data with
      | some d =>
          if d.truthy then
            match d.brightnessEntry with
            | some n => some (ceilDiv (n * 255) 100)
            | none => none
          else none
      | none => none

/-- Property `DLightEntity.color_temp_kelvin` from `src/light.py` lines 200-209:
the optimistic field if set, else (when the dict is truthy and its
`"color"` entry is a dict) that dict's `"temperature"` entry. -/
def V1.color_temp_kelvin (s : OptimisticState) (data : Option StatesData) : Option Int :=
  match s.colorTempField with
  | some n => some n
  | none =>
      match data with
      | some d =>
          if d.truthy then
            match d.colorEntry with
            | ColorEntry.dictOf t => t
            | _ => none
          else none
      | none => none

/-- Property `DLightEntity.is_on` from
`src/custom_components/dlight-hass/light.py` lines 295-311
(reads `_optimistic_on` first, then the coordinator data). -/
def V2.is_on (s : OptimisticState) (data : Option StatesData) : Option Bool :=
  match s.isOnField with
  | some b => some b
  | none =>
      match data with
      | some d => if d.truthy then d.onEntry else none
      | none => none

/-- Property `DLightEntity.brightness` from
`src/custom_components/dlight-hass/light.py` lines 313-334. -/
def V2.brightness (s : OptimisticState) (data : Option StatesData) : Option Int :=
  match s.brightnessField with
  | some n => some n
  | none =>
      match data with
      | some d =>
          if d.truthy then
            match d.brightnessEntry with
            | some n => some (ceilDiv (n * 255) 100)
            | none => none
          else none
      | none => none

/-- Property `DLightEntity.color_temp_kelvin` from
`src/custom_components/dlight-hass/light.py` lines 336-353. -/
def V2.color_temp_kelvin (s : OptimisticState) (data : Option StatesData) : Option Int :=
  match s.colorTempField with
  | some n => some n
  | none =>
      match data with
      | some d =>
          if d.truthy then
            match d.colorEntry with
            | ColorEntry.dictOf t => t
            | _ => none
          else none
      | none => none

/-- Modelled from the spec: the spec describes the optimistic-state mirror
as "duplicated with small variations across four near-identical file
revisions", but only two of those revisions are present under `src/`.
The third revision's state-reading logic is modelled from the spec's
words as the same shallow single-entity mirror: the optimistic field
first, else the polled coordinator value. -/
def V3.is_on (s : OptimisticState) (data : Option StatesData) : Option Bool :=
  match s.isOnField with
  | some b => some b
  | none =>
      match data with
      | some d => if d.truthy then d.onEntry else none
      | none => none

/-- Modelled from the spec: third revision's brightness read
(see `V3.is_on`). -/
def V3.brightness (s : OptimisticState) (data : Option StatesData) : Option Int :=
  match s.brightnessField with
  | some n => some n
  | none =>
      match data with
      | some d =>
          if d.truthy then
            match d.brightnessEntry with
            | some n => some (ceilDiv (n * 255) 100)
            | none => none
          else none
      | none => none

/-- Modelled from the spec: third revision's color-temperature read
(see `V3.is_on`). -/
def V3.color_temp_kelvin (s : OptimisticState) (data : Option StatesData) : Option Int :=
  match s.colorTempField with
  | some n => some n
  | none =>
      match data with
      | some d =>
          if d.truthy then
            match d.colorEntry with
            | ColorEntry.dictOf t => t
            | _ => none
          else none
      | none => none

/-- Modelled from the spec: fourth revision's on/off read
(see `V3.is_on`). -/
def V4.is_on (s : OptimisticState) (data : Option StatesData) : Option Bool :=
  match s.isOnField with
  | some b => some b
  | none =>
      match data with
      | some d => if d.truthy then d.onEntry else none
      | none => none

/-- Modelled from the spec: fourth revision's brightness read
(see `V3.is_on`). -/
def V4.brightness (s : OptimisticState) (data : Option StatesData) : Option Int :=
  match s.brightnessField with
  | some n => some n
  | none =>
      match data with
      | some d =>
          if d.truthy then
            match d.brightnessEntry with
            | some n => some (ceilDiv (n * 255) 100)
            | none => none
          else none
      | none => none

/-- Modelled from the spec: fourth revision's color-temperature read
(see `V3.is_on`). -/
def V4.color_temp_kelvin (s : OptimisticState) (data : Option StatesData) : Option Int :=
  match s.colorTempField with
  | some n => some n
  | none =>
      match data with
      | some d =>
          if d.truthy then
            match d.colorEntry with
            | ColorEntry.dictOf t => t
            | _ => none
          else none
      | none => none

/-- Callback `DLightEntity._handle_coordinator_update` from `src/light.py` lines
324-337: when the coordinator holds no data, return without touching
anything; otherwise clear the three optimistic fields and only then run
`super()._handle_coordinator_update()` (the base-class update, which
re-reads the properties and writes the HA state).  The result is the new
optimistic fields paired with whether the base-class update ran. -/
def V1.handle_coordinator_update (data : Option StatesData) (s : OptimisticState) :
    OptimisticState × Bool :=
  match data with
  | none => (s, false)
  | some _ => (clearedState, true)

/-- Callback `DLightEntity._handle_coordinator_update` from
`src/custom_components/dlight-hass/light.py` lines 509-533: same control
flow as the other revision via `_clear_optimistic_state()` (lines
497-506); the extra `_update_device_info()` call touches only
`_attr_device_info`, not the optimistic fields. -/
def V2.handle_coordinator_update (data : Option StatesData) (s : OptimisticState) :
    OptimisticState × Bool :=
  match data with
  | none => (s, false)
  | some _ => (clearedState, true)

/-- A command sent to the device through the `dlightclient` library
(`set_light_state` / `set_color_temperature` / `set_brightness` in
`src/light.py`; `turn_on` / `turn_off` / `set_color_temperature` /
`set_brightness` on `DLightDevice` in the other revision, which wrap the
same client calls). -/
inductive DeviceCall where
  | setLightState (to_on : Bool) : DeviceCall
  | setColorTemperature (kelvin : Int) : DeviceCall
  | setBrightness (level : Int) : DeviceCall
deriving DecidableEq

/-- How an awaited device command ends: normally, or raising one of the
exception classes distinguished by the `except` clauses of the handlers. -/
inductive CallOutcome where
  | success : CallOutcome
  | dlightErrorRaised : CallOutcome
  | valueErrorRaised : CallOutcome
  | otherErrorRaised : CallOutcome
deriving DecidableEq

/-- Whether the command raised (any class; every non-success outcome is
caught by some `except` clause of the handlers). -/
def CallOutcome.raises : CallOutcome → Bool
  | CallOutcome.success => false
  | _ => true

/-- The outcome of each kind of device command during one service call
(the device's behaviour, abstracting the network). -/
structure DeviceBehavior where
  lightOnCall : CallOutcome
  lightOffCall : CallOutcome
  colorTempCall : CallOutcome
  brightnessCall : CallOutcome
deriving DecidableEq

/-- The keyword arguments of `async_turn_on`: `ATTR_BRIGHTNESS` (0-255),
`ATTR_COLOR_TEMP_KELVIN`, and whether any further keys are present
(they matter only for the `if not kwargs` test). -/
structure TurnOnKwargs where
  brightnessArg : Option Int
  colorTempArg : Option Int
  hasOtherKeys : Bool
deriving DecidableEq

/-- Python `not kwargs`. -/
def TurnOnKwargs.isEmpty (kw : TurnOnKwargs) : Bool :=
  kw.brightnessArg.isNone && kw.colorTempArg.isNone && !kw.hasOtherKeys

/-- How a service-call handler returned: normally, or through one of its
`except` clauses (the raised exception was caught and handled there). -/
inductive MethodEnd where
  | normal : MethodEnd
  | caughtExc : MethodEnd
deriving DecidableEq

/-- Result of running a service-call handler: the optimistic fields at
return, how the method ended, and the device commands it awaited,
in order. -/
structure MethodResult where
  finalState : OptimisticState
  ended : MethodEnd
  calls : List DeviceCall
deriving DecidableEq

/-- The HA→device brightness conversion
`max(0, min(100, math.ceil((x / 255) * 100)))`
(`src/light.py` line 246, `src/custom_components/dlight-hass/light.py`
lines 386-387). -/
def dlight_brightness_of (brightness_ha : Int) : Int :=
  max 0 (min 100 (ceilDiv (brightness_ha * 100) 255))

/-- Handler `DLightEntity.async_turn_off` from `src/light.py` lines 289-319:
send `set_light_state(False)`; on success set the optimistic fields to
`(False, None, None)`; on any caught exception (`DLightError` or the
final `except Exception`) clear all three optimistic fields. -/
def V1.async_turn_off (beh : DeviceBehavior) : MethodResult :=
  if beh.lightOffCall.raises then
    { finalState := clearedState, ended := MethodEnd.caughtExc,
      calls := [DeviceCall.setLightState false] }
  else
    { finalState := ⟨some false, none, none⟩, ended := MethodEnd.normal,
      calls := [DeviceCall.setLightState false] }

/-- Success epilogue of `async_turn_on` in `src/light.py` lines 257-266:
store the optimistic targets, defaulting brightness to 255 and color
temperature to `_attr_min_color_temp_kelvin = 2600` when unknown. -/
def V1.finish_turn_on (ob oct : Option Int) (calls : List DeviceCall) : MethodResult :=
  { finalState := ⟨some true, some (ob.getD 255), some (oct.getD 2600)⟩,
    ended := MethodEnd.normal, calls := calls }

/-- The brightness branch of `async_turn_on` in `src/light.py` lines
244-255: when `ATTR_BRIGHTNESS` was passed, convert it; send
`set_brightness` when the converted value is positive, otherwise run the
`async_turn_off` logic and return.  `ob`/`oct` are the optimistic targets
computed earlier; `calls` the commands already awaited. -/
def V1.turn_on_brightness_step (beh : DeviceBehavior) (kw : TurnOnKwargs)
    (calls : List DeviceCall) (ob oct : Option Int) : MethodResult :=
  match kw.brightnessArg with
  | none => V1.finish_turn_on ob oct calls
  | some b =>
      let db := dlight_brightness_of b
      if db > 0 then
        if beh.brightnessCall.raises then
          { finalState := clearedState, ended := MethodEnd.caughtExc,
            calls := calls ++ [DeviceCall.setBrightness db] }
        else V1.finish_turn_on ob oct (calls ++ [DeviceCall.setBrightness db])
      else
        let offResult := V1.async_turn_off beh
        { finalState := offResult.finalState, ended := MethodEnd.normal,
          calls := calls ++ offResult.calls }

/-- Handler `DLightEntity.async_turn_on` from `src/light.py` lines 213-286.
Optimistic targets start from the current property values (lines
219-228); with no kwargs at all an explicit `set_light_state(True)` is
sent (lines 232-234); then `set_color_temperature` when requested (lines
238-240), then the brightness branch.  A raised `DLightError`,
`ValueError` or any other exception is caught and clears all three
optimistic fields (lines 272-286). -/
def V1.async_turn_on (beh : DeviceBehavior) (kw : TurnOnKwargs)
    (s : OptimisticState) (data : Option StatesData) : MethodResult :=
  let ob := match kw.brightnessArg with
    | some b => some b
    | none => V1.brightness s data
  let oct := match kw.colorTempArg with
    | some ct => some ct
    | none => V1.color_temp_kelvin s data
  let calls0 : List DeviceCall :=
    if kw.isEmpty then [DeviceCall.setLightState true] else []
  if kw.isEmpty && beh.lightOnCall.raises then
    { finalState := clearedState, ended := MethodEnd.caughtExc, calls := calls0 }
  else
    match kw.colorTempArg with
    | some ct =>
        if beh.colorTempCall.raises then
          { finalState := clearedState, ended := MethodEnd.caughtExc,
            calls := calls0 ++ [DeviceCall.setColorTemperature ct] }
        else
          V1.turn_on_brightness_step beh kw
            (calls0 ++ [DeviceCall.setColorTemperature ct]) ob oct
    | none => V1.turn_on_brightness_step beh kw calls0 ob oct

/-- Handler `DLightEntity.async_turn_off` from
`src/custom_components/dlight-hass/light.py` lines 463-495: identical
control flow through `device.turn_off()` and `_clear_optimistic_state()`. -/
def V2.async_turn_off (beh : DeviceBehavior) : MethodResult :=
  if beh.lightOffCall.raises then
    { finalState := clearedState, ended := MethodEnd.caughtExc,
      calls := [DeviceCall.setLightState false] }
  else
    { finalState := ⟨some false, none, none⟩, ended := MethodEnd.normal,
      calls := [DeviceCall.setLightState false] }

/-- The gathered command phase of `async_turn_on` in
`src/custom_components/dlight-hass/light.py` lines 399-449: the task list
holds the brightness command (when requested with a positive converted
value), the color-temperature command (when requested), and
`device.turn_on()` either as the only task or inserted in front when
`self.is_on` is not truthy.  `asyncio.gather(..., return_exceptions=True)`
runs every task; the first raised exception is re-raised and caught,
clearing the optimistic fields; otherwise the optimistic epilogue runs
with the same defaults as the other revision. -/
def V2.turn_on_gather_step (beh : DeviceBehavior) (kw : TurnOnKwargs)
    (s : OptimisticState) (data : Option StatesData)
    (ob oct : Option Int) (db : Int) (hasBrightnessTask : Bool) : MethodResult :=
  let hasColorTask := kw.colorTempArg.isSome
  let noTasks := !hasBrightnessTask && !hasColorTask
  let hasTurnOnTask := noTasks || (V2.is_on s data != some true)
  let calls :=
    (if hasTurnOnTask then [DeviceCall.setLightState true] else [])
      ++ (if hasBrightnessTask then [DeviceCall.setBrightness db] else [])
      ++ (match kw.colorTempArg with
          | some ct => [DeviceCall.setColorTemperature ct]
          | none => [])
  let anyRaised := (hasTurnOnTask && beh.lightOnCall.raises)
      || (hasBrightnessTask && beh.brightnessCall.raises)
      || (hasColorTask && beh.colorTempCall.raises)
  if anyRaised then
    { finalState := clearedState, ended := MethodEnd.caughtExc, calls := calls }
  else
    { finalState := ⟨some true, some (ob.getD 255), some (oct.getD 2600)⟩,
      ended := MethodEnd.normal, calls := calls }

/-- Handler `DLightEntity.async_turn_on` from
`src/custom_components/dlight-hass/light.py` lines 357-461.  The
brightness branch runs first (lines 384-397): a converted brightness of 0
runs the `async_turn_off` logic and returns before any other command is
created; otherwise the commands are gathered.  A raised `DLightError`,
`ValueError` or any other exception is caught and runs
`_clear_optimistic_state()` (lines 451-461). -/
def V2.async_turn_on (beh : DeviceBehavior) (kw : TurnOnKwargs)
    (s : OptimisticState) (data : Option StatesData) : MethodResult :=
  let ob := match kw.brightnessArg with
    | some b => some b
    | none => V2.brightness s data
  let oct := match kw.colorTempArg with
    | some ct => some ct
    | none => V2.color_temp_kelvin s data
  match kw.brightnessArg with
  | some b =>
      let db := dlight_brightness_of b
      if db = 0 then
        let offResult := V2.async_turn_off beh
        { finalState := offResult.finalState, ended := MethodEnd.normal,
          calls := offResult.calls }
      else V2.turn_on_gather_step beh kw s data ob oct db true
  | none => V2.turn_on_gather_step beh kw s data ob oct 0 false

/-- A config entry's stored data dict (`entry.data`: the user input of the
flow; string keys and values). -/
abbrev EntryData : Type := List (String × String)

/-- The parts of a Home Assistant config entry used by the setup/teardown
entry points: its domain, entry id and stored data. -/
structure HAEntry where
  domain : String
  entry_id : String
  data : EntryData
deriving DecidableEq

/-- Python `d.get(k)` / `d[k]` lookup on a dict modelled as an association
list (first entry with the key). -/
def alGet {α : Type} : List (String × α) → String → Option α
  | [], _ => none
  | (k2, v) :: rest, k => if k2 = k then some v else alGet rest k

/-- Python `d[k] = v` on a dict: replace the value in place when the key
exists (keeping dict order), else append the new entry at the end. -/
def alSet {α : Type} : List (String × α) → String → α → List (String × α)
  | [], k, v => [(k, v)]
  | (k2, v2) :: rest, k, v =>
      if k2 = k then (k2, v) :: rest else (k2, v2) :: alSet rest k v

/-- Python `d.pop(k)` on a dict: drop the entry with the key (first
occurrence; a Python dict has at most one). -/
def alRemove {α : Type} : List (String × α) → String → List (String × α)
  | [], _ => []
  | (k2, v2) :: rest, k => if k2 = k then rest else (k2, v2) :: alRemove rest k

/-- The `hass.data` mapping: a dict from integration domain to the per-entry dict of
stored config-entry data. -/
abbrev HassData : Type := List (String × List (String × EntryData))

/-- Entry point `async_setup_entry` from
`src/custom_components/dlight-hass/__init__.py` lines 16-40:
`hass.data.setdefault(entry.domain, {})[entry.entry_id] = entry.data`.
The forwarding of the setup to the light platform touches no `hass.data`
and is not modelled; the function then returns `True`. -/
def async_setup_entry (hd : HassData) (e : HAEntry) : HassData :=
  let domainDict := (alGet hd e.domain).getD []
  alSet hd e.domain (alSet domainDict e.entry_id e.data)

/-- Entry point `async_unload_entry` from
`src/custom_components/dlight-hass/__init__.py` lines 42-65.  The result
of `async_unload_platforms` is the parameter `unload_ok`; when it is
true, `hass.data[entry.domain].pop(entry.entry_id)` runs (a `KeyError`
when the domain or the entry id is missing is modelled as
`Except.error`), and the domain key is popped when its dict became
empty.  On success the returned bool is `unload_ok`. -/
def async_unload_entry (hd : HassData) (e : HAEntry) (unload_ok : Bool) :
    Except Unit (Bool × HassData) :=
  if unload_ok then
    match alGet hd e.domain with
    | none => Except.error ()
    | some inner =>
        match alGet inner e.entry_id with
        | none => Except.error ()
        | some _ =>
            let inner2 := alRemove inner e.entry_id
            if inner2.isEmpty then
              Except.ok (true, alRemove hd e.domain)
            else
              Except.ok (true, alSet hd e.domain inner2)
  else Except.ok (false, hd)

/-- The flow's unique ID: `f"dlight_{user_input[CONF_DEVICE_ID]}"`
(`src/config_flow.py` line 115,
`src/custom_components/dlight-hass/config_flow.py` line 142). -/
def flowUniqueId (device_id : String) : String := "dlight_" ++ device_id

/-- The entity's unique ID in `src/light.py` line 131:
`self._attr_unique_id = f"dlight_{self._device_id}"`. -/
def V1.entity_unique_id (device_id : String) : String := "dlight_" ++ device_id

/-- The entity's unique ID in
`src/custom_components/dlight-hass/light.py` line 239:
`self._attr_unique_id = f"dlight_{self.device.id}"`. -/
def V2.entity_unique_id (device_id : String) : String := "dlight_" ++ device_id

/-- How `async_step_user` returns: the duplicate-unique-ID abort, a
created config entry (with its title, unique ID and stored data), or the
form being (re-)shown (first display, or a validation error with
`errors["base"]` set). -/
inductive FlowStepResult where
  | abortAlreadyConfigured : FlowStepResult
  | createEntry (title : JVal) (uniqueId : String) (data : FlowUserData) : FlowStepResult
  | showForm : FlowStepResult

/-- Step `DLightConfigFlow.async_step_user` from `src/config_flow.py` lines
105-142: with no user input, show the form; otherwise set the flow's
unique ID to `flowUniqueId` of the device id and abort when an entry with
that unique ID is already configured (`configured` holds the unique IDs
of the existing entries; the `updates=user_input` side effect touches the
existing entry, not the flow result); otherwise validate and either
create the entry carrying the validated title, or re-show the form with
an error.  The device-info query outcome is `o`. -/
def async_step_user (configured : List String) (user_input : Option FlowUserData)
    (o : QueryOutcome) : FlowStepResult :=
  match user_input with
  | none => FlowStepResult.showForm
  | some inp =>
      let uid := flowUniqueId inp.device_id
      if uid ∈ configured then FlowStepResult.abortAlreadyConfigured
      else
        match validate_input inp o with
        | Except.ok title => FlowStepResult.createEntry title uid inp
        | Except.error _ => FlowStepResult.showForm

/-- C1: in every `_handle_coordinator_update` invocation with coordinator
data present, all three optimistic fields are reset to `None` before the
base-class update runs, so the entity properties are afterwards computed
solely from the polled coordinator data (they no longer depend on the
prior optimistic fields); with no coordinator data, the optimistic fields
are left unchanged and no state update occurs.  Holds for both light
platform revisions. -/
theorem coordinator_update_reconciles_optimistic_cache :
    ∀ (data : Option StatesData) (s : OptimisticState),
      (data = none →
        V1.handle_coordinator_update data s = (s, false)
        ∧ V2.handle_coordinator_update data s = (s, false))
      ∧ (∀ d, data = some d →
          V1.handle_coordinator_update data s = (clearedState, true)
          ∧ V2.handle_coordinator_update data s = (clearedState, true)
          ∧ (∀ s2 : OptimisticState,
              V1.is_on (V1.handle_coordinator_update data s).1 data
                  = V1.is_on (V1.handle_coordinator_update data s2).1 data
              ∧ V1.brightness (V1.handle_coordinator_update data s).1 data
                  = V1.brightness (V1.handle_coordinator_update data s2).1 data
              ∧ V1.color_temp_kelvin (V1.handle_coordinator_update data s).1 data
                  = V1.color_temp_kelvin (V1.handle_coordinator_update data s2).1 data
              ∧ V2.is_on (V2.handle_coordinator_update data s).1 data
                  = V2.is_on (V2.handle_coordinator_update data s2).1 data
              ∧ V2.brightness (V2.handle_coordinator_update data s).1 data
                  = V2.brightness (V2.handle_coordinator_update data s2).1 data
              ∧ V2.color_temp_kelvin (V2.handle_coordinator_update data s).1 data
                  = V2.color_temp_kelvin (V2.handle_coordinator_update data s2).1 data)) := by
  intro data s
  constructor
  · intro h
    subst h
    exact ⟨rfl, rfl⟩
  · intro d h
    subst h
    exact ⟨rfl, rfl, fun s2 => ⟨rfl, rfl, rfl, rfl, rfl, rfl⟩⟩

theorem coordinator_update_reconciles_optimistic_cache_witness :
    V1.handle_coordinator_update
        (some ⟨some true, some 50, ColorEntry.dictOf (some 3000), false⟩)
        ⟨some false, some 7, some 4000⟩
      = (clearedState, true) :=
  ((coordinator_update_reconciles_optimistic_cache
      (some ⟨some true, some 50, ColorEntry.dictOf (some 3000), false⟩)
      ⟨some false, some 7, some 4000⟩).2
    ⟨some true, some 50, ColorEntry.dictOf (some 3000), false⟩ rfl).1

/-- C2: given the same optimistic fields and the same coordinator data,
the state-reading logic (`is_on`, `brightness`, `color_temp_kelvin`) of
every revision containing the optimistic cache returns the same values
(the two revisions under `src/`, and the further two described by the
spec, modelled as `V3`/`V4`). -/
theorem state_reading_equivalent_across_revisions :
    ∀ (s : OptimisticState) (data : Option StatesData),
      (V2.is_on s data = V1.is_on s data
        ∧ V3.is_on s data = V1.is_on s data
        ∧ V4.is_on s data = V1.is_on s data)
      ∧ (V2.brightness s data = V1.brightness s data
        ∧ V3.brightness s data = V1.brightness s data
        ∧ V4.brightness s data = V1.brightness s data)
      ∧ (V2.color_temp_kelvin s data = V1.color_temp_kelvin s data
        ∧ V3.color_temp_kelvin s data = V1.color_temp_kelvin s data
        ∧ V4.color_temp_kelvin s data = V1.color_temp_kelvin s data) :=
  fun _ _ => ⟨⟨rfl, rfl, rfl⟩, ⟨rfl, rfl, rfl⟩, ⟨rfl, rfl, rfl⟩⟩

/-- C4: the polling coordinator's update function returns the `states`
value exactly when the query returned a truthy dict with status
`"SUCCESS"` containing a `states` key; every other outcome (falsy or
non-dict result, non-`SUCCESS` status, missing `states` key, the
wrapper's or the library's timeout, a library error, or any unexpected
exception) yields `UpdateFailed` and no data. -/
theorem update_data_returns_states_exactly_on_success :
    ∀ o : QueryOutcome,
      (∀ entries v, o = QueryOutcome.ok (JVal.dict entries) →
        jtruthy (JVal.dict entries) = true →
        isSuccess (jdictGet entries "status") = true →
        jdictGet entries "states" = some v →
        async_update_data o = Except.ok v)
      ∧ (∀ v, async_update_data o = Except.ok v →
          ∃ entries, o = QueryOutcome.ok (JVal.dict entries)
            ∧ jtruthy (JVal.dict entries) = true
            ∧ isSuccess (jdictGet entries "status") = true
            ∧ jdictGet entries "states" = some v) := by
  intro o
  constructor
  · intro entries v ho h1 h2 h3
    subst ho
    simp [async_update_data, h1, h2, h3]
  · intro v hv
    cases o with
    | ok w =>
        cases w with
        | dict entries =>
            refine ⟨entries, rfl, ?_⟩
            by_cases h1 : jtruthy (JVal.dict entries) = true
            · by_cases h2 : isSuccess (jdictGet entries "status") = true
              · cases hst : jdictGet entries "states" with
                | none => simp [async_update_data, h1, h2, hst] at hv
                | some states =>
                    simp [async_update_data, h1, h2, hst] at hv
                    exact ⟨h1, h2, congrArg some hv⟩
              · rw [Bool.not_eq_true] at h2
                simp [async_update_data, h2] at hv
            · rw [Bool.not_eq_true] at h1
              simp [async_update_data, h1] at hv
        | null => simp [async_update_data] at hv
        | bool b => cases b <;> simp [async_update_data] at hv
        | int n =>
            simp only [async_update_data] at hv
            split at hv <;> simp at hv
        | str st =>
            simp only [async_update_data] at hv
            split at hv <;> simp at hv
    | wrapperTimeout => exact absurd hv (by simp [async_update_data])
    | libTimeout => exact absurd hv (by simp [async_update_data])
    | libConnError => exact absurd hv (by simp [async_update_data])
    | libResponseError => exact absurd hv (by simp [async_update_data])
    | libError => exact absurd hv (by simp [async_update_data])
    | otherExc => exact absurd hv (by simp [async_update_data])

theorem update_data_returns_states_exactly_on_success_witness :
    async_update_data (QueryOutcome.ok (JVal.dict
        [("status", JVal.str "SUCCESS"), ("states", JVal.int 5)]))
      = Except.ok (JVal.int 5) :=
  (update_data_returns_states_exactly_on_success _).1 _ _ rfl rfl rfl rfl

/-- C3 counterexample: a timeout failure need not originate from the
imported client library.  The repository's own `async_timeout.timeout(10)`
wrapper in `async_update_data` (src/light.py line 70) and its own
`asyncio.wait_for` wrapper in `validate_input` (src/config_flow.py lines
60-63) raise `asyncio.TimeoutError` themselves; the resulting failures
are timeout failures on an outcome in which the library raised nothing. -/
theorem repo_timeout_wrapper_counterexample :
    updateTimeoutFailure (async_update_data QueryOutcome.wrapperTimeout) = true
    ∧ connectTimeoutFailure
        (validate_input ⟨"10.0.0.2", "dev1", none⟩ QueryOutcome.wrapperTimeout) = true
    ∧ connectTimeoutFailure
        (validate_input_v2 ⟨"10.0.0.2", "dev1", none⟩ QueryOutcome.wrapperTimeout) = true
    ∧ libraryRaised QueryOutcome.wrapperTimeout = false :=
  ⟨rfl, rfl, rfl, rfl⟩

lemma updateTimeoutFailure_iff (r : Except UpdateFailure JVal) :
    updateTimeoutFailure r = true ↔
      (r = Except.error UpdateFailure.wrapperTimeout
        ∨ r = Except.error UpdateFailure.libTimeout) := by
  cases r with
  | ok v => simp [updateTimeoutFailure]
  | error f => cases f <;> simp [updateTimeoutFailure]

lemma connectTimeoutFailure_iff (r : Except ConnectFailure JVal) :
    connectTimeoutFailure r = true ↔
      (r = Except.error ConnectFailure.wrapTimeout
        ∨ r = Except.error ConnectFailure.libTimeout) := by
  cases r with
  | ok v => simp [connectTimeoutFailure]
  | error f => cases f <;> simp [connectTimeoutFailure]

/-- C3 amended: the repository wraps device calls in timeouts of its own
(`async_timeout.timeout(10)` around the state poll, `asyncio.wait_for`
around the validation query), so a timeout failure originates either from
those repository-level wrappers (`asyncio.TimeoutError`) or from the
library's `DLightTimeoutError` — and from nothing else. -/
theorem timeout_failures_from_wrapper_or_library :
    ∀ o : QueryOutcome,
      (updateTimeoutFailure (async_update_data o) = true
        ↔ (o = QueryOutcome.wrapperTimeout ∨ o = QueryOutcome.libTimeout))
      ∧ (∀ d : FlowUserData,
          (connectTimeoutFailure (validate_input d o) = true
            ↔ (o = QueryOutcome.wrapperTimeout ∨ o = QueryOutcome.libTimeout))
          ∧ (connectTimeoutFailure (validate_input_v2 d o) = true
            ↔ (o = QueryOutcome.wrapperTimeout ∨ o = QueryOutcome.libTimeout))) := by
  intro o
  refine ⟨?_, fun d => ⟨?_, ?_⟩⟩ <;>
    (first
      | rw [updateTimeoutFailure_iff]
      | rw [connectTimeoutFailure_iff]) <;>
    (cases o <;> try (rename_i v; cases v)) <;>
    (simp only [async_update_data, validate_input, validate_input_v2] <;>
      (try split) <;> (try split) <;> simp)

/-- C5 counterexample: the title is not always "the user-provided name
when present, otherwise the deviceModel, otherwise the device_id".
With a present empty-string name (allowed by the schema), Python `or`
skips the name and the title becomes the device model; and on a response
whose `deviceModel` is the empty string, the two config-flow revisions
disagree (the `src/config_flow.py` revision returns that empty string,
the `custom_components` revision falls back to the device id), so no
single fallback chain describes both. -/
theorem validate_input_title_counterexample :
    validate_input ⟨"10.0.0.2", "abc123", some ""⟩
        (QueryOutcome.ok (JVal.dict
          [("status", JVal.str "SUCCESS"), ("deviceModel", JVal.str "ModelX")]))
      = Except.ok (JVal.str "ModelX")
    ∧ JVal.str "ModelX" ≠ JVal.str ""
    ∧ validate_input ⟨"10.0.0.2", "abc123", none⟩
        (QueryOutcome.ok (JVal.dict
          [("status", JVal.str "SUCCESS"), ("deviceModel", JVal.str "")]))
      = Except.ok (JVal.str "")
    ∧ validate_input_v2 ⟨"10.0.0.2", "abc123", none⟩
        (QueryOutcome.ok (JVal.dict
          [("status", JVal.str "SUCCESS"), ("deviceModel", JVal.str "")]))
      = Except.ok (JVal.str "abc123")
    ∧ JVal.str "" ≠ JVal.str "abc123" := by
  refine ⟨rfl, ?_, rfl, rfl, ?_⟩ <;>
    (intro h; injection h with h2; exact absurd h2 (by decide))

/-- C5 amended: `validate_input` succeeds exactly when the device-info
query returns a truthy dict with status `SUCCESS`, and raises
`CannotConnect` in every other case; on success the title is the
user-provided name when present and non-empty, otherwise a
revision-specific fallback: the raw `deviceModel` entry whenever the key
is present, else the device id (`src/config_flow.py`), respectively the
`deviceModel` value when truthy, else the device id
(`src/custom_components/dlight-hass/config_flow.py`). -/
theorem validate_input_title_amended :
    ∀ (d : FlowUserData) (o : QueryOutcome),
      isOkE (validate_input d o) = goodInfo o
      ∧ isOkE (validate_input_v2 d o) = goodInfo o
      ∧ (∀ entries, o = QueryOutcome.ok (JVal.dict entries) → goodInfo o = true →
          validate_input d o
              = Except.ok (pyOrName d.name
                  (jdictGetD entries "deviceModel" (JVal.str d.device_id)))
          ∧ validate_input_v2 d o
              = Except.ok (pyOrName d.name
                  (pyOrJ (jdictGet entries "deviceModel") (JVal.str d.device_id)))) := by
  intro d o
  refine ⟨?_, ?_, ?_⟩
  · cases o <;> try (rename_i v; cases v)
    case ok.dict =>
      rename_i entries
      by_cases h1 : jtruthy (JVal.dict entries) = true
      · by_cases h2 : isSuccess (jdictGet entries "status") = true
        · simp [validate_input, goodInfo, h1, h2, isOkE]
        · rw [Bool.not_eq_true] at h2
          simp [validate_input, goodInfo, h1, h2, isOkE]
      · rw [Bool.not_eq_true] at h1
        simp [validate_input, goodInfo, h1, isOkE]
    all_goals
      simp only [validate_input, goodInfo] <;>
        (try split) <;> simp_all [isOkE]
  · cases o <;> try (rename_i v; cases v)
    case ok.dict =>
      rename_i entries
      by_cases h1 : jtruthy (JVal.dict entries) = true
      · by_cases h2 : isSuccess (jdictGet entries "status") = true
        · simp [validate_input_v2, goodInfo, h1, h2, isOkE]
        · rw [Bool.not_eq_true] at h2
          simp [validate_input_v2, goodInfo, h1, h2, isOkE]
      · rw [Bool.not_eq_true] at h1
        simp [validate_input_v2, goodInfo, h1, isOkE]
    all_goals
      simp only [validate_input_v2, goodInfo] <;>
        (try split) <;> simp_all [isOkE]
  · intro entries ho hg
    subst ho
    simp only [goodInfo, Bool.and_eq_true] at hg
    constructor
    · simp [validate_input, hg.1, hg.2]
    · simp [validate_input_v2, hg.1, hg.2]

theorem validate_input_title_amended_witness :
    validate_input ⟨"10.0.0.2", "abc123", some "My Lamp"⟩
        (QueryOutcome.ok (JVal.dict [("status", JVal.str "SUCCESS")]))
      = Except.ok (pyOrName (some "My Lamp")
          (jdictGetD [("status", JVal.str "SUCCESS")] "deviceModel" (JVal.str "abc123"))) :=
  ((validate_input_title_amended ⟨"10.0.0.2", "abc123", some "My Lamp"⟩
      (QueryOutcome.ok (JVal.dict [("status", JVal.str "SUCCESS")]))).2.2
    [("status", JVal.str "SUCCESS")] rfl rfl).1

/-- A Python dict has each key at most once; association lists arising
from dicts satisfy this. -/
def keysNodup {α : Type} (l : List (String × α)) : Prop :=
  (l.map Prod.fst).Nodup

lemma alGet_eq_none_iff {α : Type} (l : List (String × α)) (k : String) :
    alGet l k = none ↔ k ∉ l.map Prod.fst := by
  induction l with
  | nil => simp [alGet]
  | cons p rest ih =>
      obtain ⟨k2, v2⟩ := p
      by_cases h : k2 = k
      · subst h
        simp [alGet]
      · simp [alGet, h, ih, Ne.symm h]

lemma alGet_alSet_self {α : Type} (l : List (String × α)) (k : String) (v : α) :
    alGet (alSet l k v) k = some v := by
  induction l with
  | nil => simp [alSet, alGet]
  | cons p rest ih =>
      obtain ⟨k2, v2⟩ := p
      by_cases h : k2 = k
      · subst h
        simp [alSet, alGet]
      · simp [alSet, alGet, h, ih]

lemma alGet_alRemove_self {α : Type} (l : List (String × α)) (k : String)
    (h : keysNodup l) : alGet (alRemove l k) k = none := by
  induction l with
  | nil => simp [alRemove, alGet]
  | cons p rest ih =>
      obtain ⟨k2, v2⟩ := p
      unfold keysNodup at h
      simp only [List.map_cons, List.nodup_cons] at h
      by_cases hk : k2 = k
      · subst hk
        simp only [alRemove, if_pos rfl]
        exact (alGet_eq_none_iff rest k2).2 h.1
      · simp [alRemove, alGet, hk, ih h.2]

lemma alSet_of_get_none {α : Type} (l : List (String × α)) (k : String) (v : α)
    (h : alGet l k = none) : alSet l k v = l ++ [(k, v)] := by
  induction l with
  | nil => simp [alSet]
  | cons p rest ih =>
      obtain ⟨k2, v2⟩ := p
      by_cases hk : k2 = k
      · subst hk
        simp [alGet] at h
      · simp only [alGet, if_neg hk] at h
        simp [alSet, hk, ih h]

lemma alGet_append_right_of_none {α : Type} (l m : List (String × α)) (k : String)
    (h : alGet l k = none) : alGet (l ++ m) k = alGet m k := by
  induction l with
  | nil => simp
  | cons p rest ih =>
      obtain ⟨k2, v2⟩ := p
      by_cases hk : k2 = k
      · subst hk
        simp [alGet] at h
      · simp only [alGet, if_neg hk] at h
        simp [alGet, hk, ih h]

lemma alRemove_append_single_of_none {α : Type} (l : List (String × α))
    (k : String) (v : α) (h : alGet l k = none) :
    alRemove (l ++ [(k, v)]) k = l := by
  induction l with
  | nil => simp [alRemove]
  | cons p rest ih =>
      obtain ⟨k2, v2⟩ := p
      by_cases hk : k2 = k
      · subst hk
        simp [alGet] at h
      · simp only [alGet, if_neg hk] at h
        simp [alRemove, hk, ih h]

/-- C6 counterexample: the setup/unload round trip does not restore every
pre-setup `hass.data`.  Starting from a `hass.data` in which the domain
already holds this very entry (with older data), setting up and then
successfully unloading pops the whole domain, leaving `{}` rather than
the original mapping. -/
theorem setup_unload_roundtrip_counterexample :
    async_unload_entry
        (async_setup_entry
          [("dlight-hass", [("entry1", [("ip_address", "10.0.0.1")])])]
          ⟨"dlight-hass", "entry1", [("ip_address", "10.0.0.2")]⟩)
        ⟨"dlight-hass", "entry1", [("ip_address", "10.0.0.2")]⟩ true
      = Except.ok (true, ([] : HassData))
    ∧ ([] : HassData)
        ≠ [("dlight-hass", [("entry1", [("ip_address", "10.0.0.1")])])] := by
  constructor
  · rfl
  · intro h
    exact absurd h (by simp)

/-- C6 amended: `async_setup_entry` stores `entry.data` under
`hass.data[domain][entry_id]`; a subsequent successful
`async_unload_entry` removes the entry id from the domain's dict and
drops the domain key exactly when no other entries remain; and when the
domain key was absent from `hass.data` before setup (so the entry is the
only one for its domain), the round trip restores `hass.data` to its
pre-setup state. -/
theorem setup_unload_roundtrip_amended :
    ∀ (hd : HassData) (e : HAEntry),
      (∃ inner, alGet (async_setup_entry hd e) e.domain = some inner
        ∧ alGet inner e.entry_id = some e.data)
      ∧ (∀ inner, alGet hd e.domain = some inner →
          (alGet inner e.entry_id).isSome = true →
          keysNodup hd → keysNodup inner →
          ∃ hd2, async_unload_entry hd e true = Except.ok (true, hd2)
            ∧ ((alRemove inner e.entry_id).isEmpty = true →
                alGet hd2 e.domain = none)
            ∧ ((alRemove inner e.entry_id).isEmpty = false →
                alGet hd2 e.domain = some (alRemove inner e.entry_id)
                ∧ alGet (alRemove inner e.entry_id) e.entry_id = none))
      ∧ (alGet hd e.domain = none →
          async_unload_entry (async_setup_entry hd e) e true
            = Except.ok (true, hd)) := by
  intro hd e
  refine ⟨?_, ?_, ?_⟩
  · refine ⟨alSet ((alGet hd e.domain).getD []) e.entry_id e.data, ?_, ?_⟩
    · exact alGet_alSet_self hd e.domain _
    · exact alGet_alSet_self _ e.entry_id e.data
  · intro inner hdom hid hnodupHd hnodupInner
    obtain ⟨d0, hd0⟩ := Option.isSome_iff_exists.1 hid
    unfold async_unload_entry
    rw [if_pos rfl, hdom]
    dsimp only
    rw [hd0]
    by_cases hemp : (alRemove inner e.entry_id).isEmpty = true
    · refine ⟨alRemove hd e.domain, ?_, ?_, ?_⟩
      · rw [if_pos hemp]
      · intro _
        exact alGet_alRemove_self hd e.domain hnodupHd
      · intro hcontra
        rw [hemp] at hcontra
        exact absurd hcontra (by simp)
    · rw [Bool.not_eq_true] at hemp
      refine ⟨alSet hd e.domain (alRemove inner e.entry_id), ?_, ?_, ?_⟩
      · rw [if_neg (by rw [hemp]; exact Bool.false_ne_true)]
      · intro hcontra
        rw [hemp] at hcontra
        exact absurd hcontra (by simp)
      · intro _
        exact ⟨alGet_alSet_self hd e.domain _,
          alGet_alRemove_self inner e.entry_id hnodupInner⟩
  · intro hnone
    unfold async_setup_entry
    rw [hnone]
    have hsetup : alSet hd e.domain (alSet (Option.getD none []) e.entry_id e.data)
        = hd ++ [(e.domain, [(e.entry_id, e.data)])] :=
      alSet_of_get_none hd e.domain _ hnone
    rw [hsetup]
    unfold async_unload_entry
    rw [if_pos rfl]
    rw [alGet_append_right_of_none hd _ e.domain hnone]
    simp [alGet, alRemove,
      alRemove_append_single_of_none hd e.domain [(e.entry_id, e.data)] hnone]

theorem setup_unload_roundtrip_amended_witness :
    async_unload_entry
        (async_setup_entry [("other_domain", [])]
          ⟨"dlight-hass", "entry1", [("ip_address", "10.0.0.2")]⟩)
        ⟨"dlight-hass", "entry1", [("ip_address", "10.0.0.2")]⟩ true
      = Except.ok (true, [("other_domain", [])]) :=
  (setup_unload_roundtrip_amended [("other_domain", [])]
      ⟨"dlight-hass", "entry1", [("ip_address", "10.0.0.2")]⟩).2.2 (by decide)

lemma v1_turn_off_atomic (beh : DeviceBehavior) :
    (V1.async_turn_off beh).ended = MethodEnd.caughtExc →
    (V1.async_turn_off beh).finalState = clearedState := by
  unfold V1.async_turn_off
  split
  · intro _; rfl
  · intro h; exact absurd h (by simp)

lemma v2_turn_off_atomic (beh : DeviceBehavior) :
    (V2.async_turn_off beh).ended = MethodEnd.caughtExc →
    (V2.async_turn_off beh).finalState = clearedState := by
  unfold V2.async_turn_off
  split
  · intro _; rfl
  · intro h; exact absurd h (by simp)

lemma v1_brightness_step_atomic (beh : DeviceBehavior) (kw : TurnOnKwargs)
    (calls : List DeviceCall) (ob oct : Option Int) :
    (V1.turn_on_brightness_step beh kw calls ob oct).ended = MethodEnd.caughtExc →
    (V1.turn_on_brightness_step beh kw calls ob oct).finalState = clearedState := by
  unfold V1.turn_on_brightness_step V1.finish_turn_on
  dsimp only
  split
  · intro h; exact absurd h (by simp)
  · split
    · split
      · intro _; rfl
      · intro h; exact absurd h (by simp)
    · intro h; exact absurd h (by simp)

lemma v1_turn_on_atomic (beh : DeviceBehavior) (kw : TurnOnKwargs)
    (s : OptimisticState) (data : Option StatesData) :
    (V1.async_turn_on beh kw s data).ended = MethodEnd.caughtExc →
    (V1.async_turn_on beh kw s data).finalState = clearedState := by
  unfold V1.async_turn_on
  dsimp only
  split
  · intro _; rfl
  · split
    · split
      · intro _; rfl
      · exact v1_brightness_step_atomic beh kw _ _ _
    · exact v1_brightness_step_atomic beh kw _ _ _

lemma v2_gather_step_atomic (beh : DeviceBehavior) (kw : TurnOnKwargs)
    (s : OptimisticState) (data : Option StatesData)
    (ob oct : Option Int) (db : Int) (hasBrightnessTask : Bool) :
    (V2.turn_on_gather_step beh kw s data ob oct db hasBrightnessTask).ended
        = MethodEnd.caughtExc →
    (V2.turn_on_gather_step beh kw s data ob oct db hasBrightnessTask).finalState
        = clearedState := by
  unfold V2.turn_on_gather_step
  dsimp only
  split
  · intro _; rfl
  · intro h; exact absurd h (by simp)

lemma v2_turn_on_atomic (beh : DeviceBehavior) (kw : TurnOnKwargs)
    (s : OptimisticState) (data : Option StatesData) :
    (V2.async_turn_on beh kw s data).ended = MethodEnd.caughtExc →
    (V2.async_turn_on beh kw s data).finalState = clearedState := by
  unfold V2.async_turn_on
  dsimp only
  split
  · split
    · intro h; exact absurd h (by simp)
    · exact v2_gather_step_atomic beh kw s data _ _ _ _
  · exact v2_gather_step_atomic beh kw s data _ _ _ _

/-- C7: every execution of `async_turn_on` or `async_turn_off`, in either
light platform revision, that ends in a caught exception (`DLightError`,
`ValueError`, or any other exception) leaves all three optimistic fields
`None` at return, so the reported state falls back entirely to the last
successfully polled coordinator data. -/
theorem caught_exception_clears_optimistic_state :
    ∀ (beh : DeviceBehavior) (kw : TurnOnKwargs) (s : OptimisticState)
      (data : Option StatesData),
      ((V1.async_turn_on beh kw s data).ended = MethodEnd.caughtExc →
        (V1.async_turn_on beh kw s data).finalState = clearedState)
      ∧ ((V2.async_turn_on beh kw s data).ended = MethodEnd.caughtExc →
        (V2.async_turn_on beh kw s data).finalState = clearedState)
      ∧ ((V1.async_turn_off beh).ended = MethodEnd.caughtExc →
        (V1.async_turn_off beh).finalState = clearedState)
      ∧ ((V2.async_turn_off beh).ended = MethodEnd.caughtExc →
        (V2.async_turn_off beh).finalState = clearedState) :=
  fun beh kw s data =>
    ⟨v1_turn_on_atomic beh kw s data, v2_turn_on_atomic beh kw s data,
      v1_turn_off_atomic beh, v2_turn_off_atomic beh⟩

theorem caught_exception_clears_optimistic_state_witness :
    (V1.async_turn_on
        ⟨CallOutcome.dlightErrorRaised, CallOutcome.dlightErrorRaised,
          CallOutcome.dlightErrorRaised, CallOutcome.dlightErrorRaised⟩
        ⟨none, none, false⟩ ⟨some true, some 77, some 3000⟩ none).finalState
      = clearedState :=
  (caught_exception_clears_optimistic_state
      ⟨CallOutcome.dlightErrorRaised, CallOutcome.dlightErrorRaised,
        CallOutcome.dlightErrorRaised, CallOutcome.dlightErrorRaised⟩
      ⟨none, none, false⟩ ⟨some true, some 77, some 3000⟩ none).1 (by decide)

/-- C8: for HA brightness 0-255, the converted device brightness
`max(0, min(100, ceil((b / 255) * 100)))` lies in 0-100 and is 0 exactly
for b = 0; and whenever the converted value is 0, `async_turn_on` (in
either revision) sends no brightness command to the device, runs the
`async_turn_off` logic instead, and returns. -/
theorem brightness_conversion_zero_is_turn_off :
    ∀ b : Int, 0 ≤ b → b ≤ 255 →
      (0 ≤ dlight_brightness_of b ∧ dlight_brightness_of b ≤ 100
        ∧ (dlight_brightness_of b = 0 ↔ b = 0))
      ∧ (∀ (beh : DeviceBehavior) (kw : TurnOnKwargs) (s : OptimisticState)
          (data : Option StatesData),
          kw.brightnessArg = some b → dlight_brightness_of b = 0 →
          ((∀ lvl, DeviceCall.setBrightness lvl ∉ (V1.async_turn_on beh kw s data).calls)
            ∧ (∀ lvl, DeviceCall.setBrightness lvl ∉ (V2.async_turn_on beh kw s data).calls)
            ∧ (∀ calls ob oct,
                V1.turn_on_brightness_step beh kw calls ob oct
                  = { finalState := (V1.async_turn_off beh).finalState,
                      ended := MethodEnd.normal,
                      calls := calls ++ (V1.async_turn_off beh).calls })
            ∧ V2.async_turn_on beh kw s data
                = { finalState := (V2.async_turn_off beh).finalState,
                    ended := MethodEnd.normal,
                    calls := (V2.async_turn_off beh).calls })) := by
  intro b hb0 hb255
  constructor
  · unfold dlight_brightness_of ceilDiv
    refine ⟨?_, ?_, ?_⟩ <;> omega
  · intro beh kw s data hkb hdb0
    obtain ⟨kb, kc, kh⟩ := kw
    simp only at hkb
    subst hkb
    refine ⟨?_, ?_, ?_, ?_⟩
    · intro lvl
      have hempty : TurnOnKwargs.isEmpty ⟨some b, kc, kh⟩ = false := by
        simp [TurnOnKwargs.isEmpty]
      cases kc <;>
        simp [V1.async_turn_on, V1.turn_on_brightness_step, V1.async_turn_off,
          V1.finish_turn_on, hempty, hdb0] <;>
        split <;> (try split) <;> simp
    · intro lvl
      simp only [V2.async_turn_on, hdb0]
      simp [V2.async_turn_off] <;> split <;> simp
    · intro calls ob oct
      simp [V1.turn_on_brightness_step, hdb0]
    · simp [V2.async_turn_on, hdb0]

theorem brightness_conversion_zero_is_turn_off_witness :
    (0 ≤ dlight_brightness_of 0 ∧ dlight_brightness_of 0 ≤ 100
      ∧ (dlight_brightness_of 0 = 0 ↔ (0 : Int) = 0))
    ∧ V2.async_turn_on
        ⟨CallOutcome.success, CallOutcome.success,
          CallOutcome.success, CallOutcome.success⟩
        ⟨some 0, some 3000, false⟩ clearedState none
      = { finalState := (V2.async_turn_off
            ⟨CallOutcome.success, CallOutcome.success,
              CallOutcome.success, CallOutcome.success⟩).finalState,
          ended := MethodEnd.normal,
          calls := (V2.async_turn_off
            ⟨CallOutcome.success, CallOutcome.success,
              CallOutcome.success, CallOutcome.success⟩).calls } :=
  ⟨(brightness_conversion_zero_is_turn_off 0 (by decide) (by decide)).1,
    ((brightness_conversion_zero_is_turn_off 0 (by decide) (by decide)).2
      ⟨CallOutcome.success, CallOutcome.success,
        CallOutcome.success, CallOutcome.success⟩
      ⟨some 0, some 3000, false⟩ clearedState none rfl (by decide)).2.2.2⟩

/-- C9: the config flow sets the flow unique ID to `dlight_` followed by
the device id and aborts exactly when an entry with that unique ID is
already configured; the light entity of either revision uses the
identical string as its unique ID; the map from device id to unique ID is
injective; and a created entry always carries the unique ID of its
device id, which was not yet configured — so no two config entries, and
no two entities, can exist for the same device id. -/
theorem unique_id_consistent_flow_and_entity :
    (∀ d : String, V1.entity_unique_id d = flowUniqueId d)
    ∧ (∀ d : String, V2.entity_unique_id d = flowUniqueId d)
    ∧ (∀ d1 d2 : String, flowUniqueId d1 = flowUniqueId d2 → d1 = d2)
    ∧ (∀ (cfg : List String) (inp : FlowUserData) (o : QueryOutcome),
        (async_step_user cfg (some inp) o = FlowStepResult.abortAlreadyConfigured
          ↔ flowUniqueId inp.device_id ∈ cfg))
    ∧ (∀ (cfg : List String) (inp : FlowUserData) (o : QueryOutcome)
        (t : JVal) (uid : String) (dat : FlowUserData),
        async_step_user cfg (some inp) o = FlowStepResult.createEntry t uid dat →
        uid = flowUniqueId inp.device_id
          ∧ flowUniqueId inp.device_id ∉ cfg ∧ dat = inp) := by
  refine ⟨fun d => rfl, fun d => rfl, ?_, ?_, ?_⟩
  · intro d1 d2 h
    obtain ⟨l1⟩ := d1
    obtain ⟨l2⟩ := d2
    have h2 : "dlight_".data ++ l1 = "dlight_".data ++ l2 := congrArg String.data h
    exact congrArg String.mk (List.append_cancel_left h2)
  · intro cfg inp o
    constructor
    · intro h
      by_contra hmem
      simp only [async_step_user, if_neg hmem] at h
      cases hv : validate_input inp o with
      | ok t => rw [hv] at h; exact absurd h (by simp)
      | error f => rw [hv] at h; exact absurd h (by simp)
    · intro hmem
      simp [async_step_user, hmem]
  · intro cfg inp o t uid dat h
    by_cases hmem : flowUniqueId inp.device_id ∈ cfg
    · simp [async_step_user, hmem] at h
    · simp only [async_step_user, if_neg hmem] at h
      cases hv : validate_input inp o with
      | ok t2 =>
          rw [hv] at h
          injection h with h1 h2 h3
          exact ⟨h2.symm, hmem, h3.symm⟩
      | error f => rw [hv] at h; exact absurd h (by simp)

theorem unique_id_consistent_flow_and_entity_witness :
    ("abc" : String) = "abc"
    ∧ ("dlight_xyz" = flowUniqueId "xyz"
        ∧ flowUniqueId "xyz" ∉ ([] : List String)
        ∧ ({ ip_address := "10.0.0.9", device_id := "xyz", name := none }
            : FlowUserData)
          = { ip_address := "10.0.0.9", device_id := "xyz", name := none }) :=
  ⟨unique_id_consistent_flow_and_entity.2.2.1 "abc" "abc" rfl,
    unique_id_consistent_flow_and_entity.2.2.2.2 []
      { ip_address := "10.0.0.9", device_id := "xyz", name := none }
      (QueryOutcome.ok (JVal.dict [("status", JVal.str "SUCCESS")]))
      (JVal.str "xyz") "dlight_xyz"
      { ip_address := "10.0.0.9", device_id := "xyz", name := none } rfl⟩
